import Mathlib

/-
  Verification of the chat session synchronization engine
  (src/ts/app-data.ts) against its specification.

  The TypeScript classes are shallowly embedded as Lean structures and
  the methods as pure state-transition functions.  JavaScript values
  that may be `undefined`/`null` are modelled as `Option`; JavaScript
  string truthiness (`if (s)`) is `s.getD "" ≠ ""` for optional strings
  and `s ≠ ""` for plain strings.  Asynchronous remote calls are
  modelled by passing their eventual result as an explicit parameter;
  timers are modelled by recording the scheduled delay.
-/

namespace HomelabGpt

/-- Embeds class Message (src/ts/app-data.ts lines 5-15).  Optional TS
fields become Option; token/cost counters are kept abstractly as Nat. -/
structure Message where
  id : String := ""
  role : String := ""
  message : Option String := none
  cost_tokens_completion : Option Nat := none
  cost_tokens_prompt : Option Nat := none
  finish_reason : Option String := none
  error : Option String := none
  deriving Repr, DecidableEq

/-- Embeds class Settings (lines 22-28) with its field defaults. -/
structure Settings where
  determinism : Nat := 50
  max_tokens : Nat := 1000
  model : String := "gpt-4"
  api_key : String := ""
  prompt : String := ""
  deriving Repr, DecidableEq

/-- Embeds class User (lines 30-34). -/
structure User where
  name : String := ""
  id : String := ""
  api_key : Option String := none
  deriving Repr, DecidableEq

/-- Embeds class Chat (lines 36-80).  `id` and `user_id` are declared
without initializers in TS, hence start `undefined`: Option with
default none.  `loaded? = false` and `temporary_name?: string = ""`
keep their TS defaults. -/
structure Chat where
  id : Option String := none
  user_id : Option String := none
  name : String := ""
  messages : List Message := []
  settings : Settings := {}
  loaded : Bool := false
  temporary_name : String := ""
  deriving Repr, DecidableEq

/-- Embeds Chat._clamp (lines 67-73): strings longer than 200
characters are cut to their first 200 characters. -/
def clamp (value : String) : String :=
  if 200 < value.length then ⟨value.data.take 200⟩ else value

/-- The message loop inside Chat.label (lines 54-58): return the
clamped text of the first message whose text is truthy. -/
def labelFromMessages : List Message → Option String
  | [] => none
  | m :: rest =>
    if m.message.getD "" ≠ "" then some (clamp (m.message.getD ""))
    else labelFromMessages rest

/-- Embeds Chat.label (lines 45-65). -/
def Chat.label (c : Chat) : String :=
  if c.name ≠ "" then c.name
  else if c.settings.prompt ≠ "" then clamp c.settings.prompt
  else
    match labelFromMessages c.messages with
    | some l => l
    | none => if c.temporary_name ≠ "" then c.temporary_name else "New Chat"

/-- Embeds Chat.createEmptyChat (lines 75-79). -/
def Chat.createEmptyChat : Chat := { loaded := true }

/-- Embeds class LocalSaveInfo (lines 82-90), the shape of the durable
local snapshot. -/
structure LocalSaveInfo where
  user : Option User := none
  chat : Option Chat := none
  version : Option Nat := none
  deriving Repr, DecidableEq

/-- Embeds the state of class AppData (lines 92-105).  The transport
handles (abortController, streamWebSocket) are modelled by whether a
handle is present; the single-slot debounce timer `_dirtySave` by the
delay (ms) of the pending flush, none when no flush is pending.  The
read-only reference lists (models, users) and the publish callback are
not touched by the operations modelled here and are omitted. -/
structure AppData where
  chats : List Chat := []
  user : Option User := none
  currentChat : Option Chat := none
  unsavedChat : Option Chat := none
  busy : Bool := false
  dirtyScheduled : Option Nat := none
  abortController : Bool := false
  streamWebSocket : Bool := false
  deriving Repr, DecidableEq

/-- Embeds AppData.dirty (lines 497-505): any pending flush timer is
cancelled and replaced by one firing after 1ms (saveNow) or 1500ms. -/
def dirty (s : AppData) (saveNow : Bool := false) : AppData :=
  { s with dirtyScheduled := some (if saveNow then 1 else 1500) }

/-- Embeds AppData.isSaved (lines 507-524), the save-eligibility
predicate.  `!this.currentChat.id` is falsy exactly when id is
undefined or the empty string; `user_id != user.id` is the loose
inequality between an optional string and the user's string id. -/
def isSaved (s : AppData) : Bool :=
  match s.currentChat with
  | none => false
  | some c =>
    match s.user with
    | none => false
    | some u =>
      if c.id.getD "" = "" then false
      else if ¬ (c.user_id = some u.id) then false
      else if ¬ c.loaded then false
      else true

/-- Embeds AppData.cancel (lines 250-262): abort and drop the abort
controller if present, close and drop the web socket if present, clear
the busy flag, schedule a debounced flush. -/
def cancel (s : AppData) : AppData :=
  dirty { s with abortController := false, streamWebSocket := false, busy := false }

/-- The replace-by-id loop of AppData.openChat (lines 235-245): replace
the first list entry whose id equals the fetched chat's id; report
whether one was found. -/
def replaceFirstById : List Chat → Chat → List Chat × Bool
  | [], _ => ([], false)
  | x :: xs, d =>
    if x.id = d.id then (d :: xs, true)
    else
      let r := replaceFirstById xs d
      (x :: r.1, r.2)

/-- Embeds AppData.openChat (lines 198-248).  `fid` stands for the
uuid generated for a synthesized blank chat; `fetchResult` for the
conversation the remote fetch would return for a not-yet-loaded chat
(the asynchronous fetch is modelled by its completed result).  Object
identity comparisons of the TS code are modelled structurally. -/
def openChat (s : AppData) (chat : Option Chat) (fid : String) (fetchResult : Chat) :
    AppData :=
  match chat with
  | none =>
    if isSaved s then
      match s.unsavedChat with
      | some draft => { s with currentChat := some draft, unsavedChat := none }
      | none =>
        { s with currentChat := some { id := some fid, loaded := true }, unsavedChat := none }
    else s
  | some c =>
    let s1 := if s.currentChat ≠ some c ∧ ¬ isSaved s
              then { s with unsavedChat := s.currentChat } else s
    if c.loaded then { s1 with currentChat := some c }
    else
      let data := { fetchResult with loaded := true }
      let r := replaceFirstById s1.chats data
      let chats1 := if r.2 then r.1 else s1.chats ++ [data]
      { s1 with currentChat := some data, chats := chats1 }

/-- The JavaScript Array.indexOf under structural equality: the index
of the first occurrence, or -1 when absent. -/
def jsIndexOf (l : List Message) (m : Message) : Int :=
  match l.findIdx? (fun x => x == m) with
  | some i => (i : Int)
  | none => -1

/-- Embeds AppData.delete (lines 264-274): no-op without a current
chat; otherwise cancel, remove the message if present, mark dirty. -/
def deleteMessage (s : AppData) (msg : Message) : AppData :=
  match s.currentChat with
  | none => s
  | some c =>
    let s1 := cancel s
    let c1 :=
      match c.messages.findIdx? (fun x => x == msg) with
      | some i => { c with messages := c.messages.take i ++ c.messages.drop (i + 1) }
      | none => c
    dirty { s1 with currentChat := some c1 }

/-- Embeds AppData.insertMessage (lines 276-287): insert after
oldMessage (index 0 when oldMessage is null or not found, since
indexOf then yields -1 and the code adds 1), then mark dirty. -/
def insertMessage (s : AppData) (oldMessage : Option Message) (newMessage : Message) :
    AppData :=
  match s.currentChat with
  | none => s
  | some c =>
    let idx : Nat :=
      match oldMessage with
      | none => 0
      | some om =>
        match c.messages.findIdx? (fun x => x == om) with
        | some i => i + 1
        | none => 0
    let c1 := { c with messages := c.messages.take idx ++ newMessage :: c.messages.drop idx }
    dirty { s with currentChat := some c1 }

/-- Embeds AppData.truncate (lines 289-297): when the message is found
drop it and everything after it (splice from its index to the end).
The method returns without calling dirty. -/
def truncate (s : AppData) (msg : Message) : AppData :=
  match s.currentChat with
  | none => s
  | some c =>
    match c.messages.findIdx? (fun x => x == msg) with
    | some i => { s with currentChat := some { c with messages := c.messages.take i } }
    | none => s

/-- The request frame built by AppData.chat (lines 335-344) and sent
on connection open.  The temperature is computed over the rationals;
the concrete values the claims name (0, 1, 2) are exact in the source's
floating point as well. -/
structure ChatRequest where
  messages : List Message := []
  model : String := ""
  temperature : ℚ := 0
  prompt : String := ""
  id : String := ""
  max_tokens : Nat := 0
  continuation : Option String := none
  api_key : String := ""
  deriving Repr, DecidableEq

/-- Result of starting AppData.chat: the state after the synchronous
part of the method, the request frame that the opened socket would
send (none when the method returned early), and the message index
captured at request time for routing incoming frames. -/
structure ChatStart where
  state : AppData
  request : Option ChatRequest := none
  capturedIndex : Option Int := none
  deriving Repr, DecidableEq

/-- Embeds the synchronous body of AppData.chat (lines 313-380) up to
building the web socket: cancel any prior exchange, set busy, return
early when there is no current chat, default the history to a copy of
the chat's messages (taken before the placeholder push), either push a
fresh assistant placeholder (id `fid`) or treat the given message's
text as continuation seed, build the request frame, and capture
`chat.messages.indexOf(message)` for the frame handler. -/
def chatStep (s : AppData) (prompt model : String) (determinism maxTokens : Nat)
    (api_key : String) (messages : Option (List Message)) (message : Option Message)
    (fid : String) : ChatStart :=
  let s1 := cancel s
  let s2 := { s1 with busy := true }
  match s2.currentChat with
  | none => { state := s2 }
  | some chat =>
    let msgs := match messages with
      | none => chat.messages
      | some ms => ms
    let mc : Message × Option String × Chat :=
      match message with
      | none =>
        let m : Message := { role := "assistant", message := some "...", id := fid }
        (m, some "", { chat with messages := chat.messages ++ [m] })
      | some m => (m, m.message, chat)
    let request : ChatRequest :=
      { messages := msgs
        model := model
        temperature := (100 - (determinism : ℚ)) / 100 * 2
        prompt := prompt
        id := mc.1.id
        max_tokens := maxTokens
        continuation := mc.2.1
        api_key := api_key }
    { state := { s2 with currentChat := some mc.2.2, streamWebSocket := true }
      request := some request
      capturedIndex := some (jsIndexOf mc.2.2.messages mc.1) }

/-- Embeds the onMessage handler of AppData.chat (lines 368-375): the
incoming frame is written at the index captured at request time,
`chat.messages[index] = data`.  An in-bounds index overwrites that
position; out-of-bounds assignments (impossible in the scenarios
modelled here) leave the list unchanged. -/
def onMessageFrame (c : Chat) (index : Int) (data : Message) : Chat :=
  if 0 ≤ index ∧ index.toNat < c.messages.length then
    { c with messages := c.messages.set index.toNat data }
  else c

/-- Result of AppData._doSave: the state after the method (the current
chat's temporary_name is refreshed when save-eligible), the durable
snapshot now in local storage, and the conversation pushed to the
remote store when save-eligible. -/
structure DoSaveResult where
  state : AppData
  storage : Option LocalSaveInfo
  upsert : Option Chat
  deriving Repr, DecidableEq

/-- Embeds AppData._doSave (lines 526-549).  `_prev` is the snapshot
previously in local storage; localStorage.setItem replaces it
unconditionally.  The local write happens before, and independently
of, the remote push. -/
def doSave (s : AppData) (_prev : Option LocalSaveInfo) : DoSaveResult :=
  let chatToSave := if isSaved s ∧ s.unsavedChat.isSome then s.unsavedChat else s.currentChat
  let serialize : LocalSaveInfo := { chat := chatToSave, user := s.user, version := some 3 }
  let storage := some serialize
  if isSaved s then
    match s.currentChat with
    | some c =>
      let c1 := { c with temporary_name := c.label }
      { state := { s with currentChat := some c1 }, storage := storage, upsert := some c1 }
    | none => { state := s, storage := storage, upsert := none }
  else { state := s, storage := storage, upsert := none }

/-- A message as it appears in a raw persisted blob, before migration:
version-1 blobs may carry the combined `cost_tokens` counter.  Fields
not inspected by the migrator are omitted. -/
structure RawMessage where
  id : String := ""
  cost_tokens : Option Nat := none
  cost_tokens_completion : Option Nat := none
  deriving Repr, DecidableEq

/-- A raw persisted blob as inspected by AppData.upgradeStoredData:
either a bare conversation (versions 1 and 2) carrying its messages
and a version tag, or the wrapped shape \x7bchat, user: null,
serializationVersion\x7d of version 3. -/
inductive StoredBlob where
  | bare (messages : List RawMessage) (serializationVersion : Option Nat)
  | wrapped (chat : StoredBlob) (serializationVersion : Option Nat)
  deriving Repr, DecidableEq

/-- The serializationVersion tag of a raw blob. -/
def StoredBlob.version : StoredBlob → Option Nat
  | .bare _ v => v
  | .wrapped _ v => v

/-- The per-message body of the version-1 loop in upgradeStoredData
(lines 436-440): a truthy `cost_tokens` is moved to
`cost_tokens_completion` and cleared. -/
def upgradeMessage (m : RawMessage) : RawMessage :=
  if m.cost_tokens.getD 0 ≠ 0 then
    { m with cost_tokens_completion := m.cost_tokens, cost_tokens := none }
  else m

/-- Embeds AppData.upgradeStoredData (lines 434-454).  Note that the
source assigns `serializationVersion = 2` inside the per-message loop,
so a version-1 blob with no messages keeps version 1 and skips the
wrapping step.  (On a wrapped blob tagged version 1 the source would
throw iterating the absent `messages` field; such blobs are never
produced and are passed through here.) -/
def upgradeStoredData (source : StoredBlob) : StoredBlob :=
  let source1 :=
    match source with
    | .bare msgs v =>
      if v = some 1 then
        if msgs.isEmpty then StoredBlob.bare msgs v
        else StoredBlob.bare (msgs.map upgradeMessage) (some 2)
      else StoredBlob.bare msgs v
    | other => other
  if source1.version = some 2 then .wrapped source1 (some 3) else source1

/- Concrete states used by witnesses and counterexamples. -/

/-- A save-eligible current chat: non-empty id, matching owner, loaded. -/
def w1Chat : Chat := { id := some "c-1", user_id := some "u-1", loaded := true }

/-- The active user owning w1Chat. -/
def w1User : User := { name := "alice", id := "u-1" }

/-- A store whose current chat is save-eligible. -/
def w1State : AppData := { currentChat := some w1Chat, user := some w1User }

/-- A non-save-eligible current chat (no id) with one message. -/
def c3Chat : Chat :=
  { messages := [{ id := "m1", role := "user", message := some "hello" }], loaded := true }

/-- A store holding c3Chat with no user and no stashed draft. -/
def c3State : AppData := { currentChat := some c3Chat }

/-- A stashed unsaved draft. -/
def w3Draft : Chat :=
  { temporary_name := "draft", messages := [{ id := "d1", role := "user" }] }

/-- A store with a save-eligible current chat and a stashed draft. -/
def w3State : AppData :=
  { currentChat := some w1Chat, user := some w1User, unsavedChat := some w3Draft }

/-- A message sitting first in c5Chat. -/
def c5Msg : Message := { id := "m1", role := "user", message := some "x" }

/-- A chat with two messages, used for the edit operations. -/
def c5Chat : Chat :=
  { loaded := true, messages := [c5Msg, { id := "m2", role := "assistant" }] }

/-- A store whose current chat is c5Chat, with no pending flush. -/
def c5State : AppData := { currentChat := some c5Chat }

/-- The user message present before a send is issued. -/
def c4UserMsg : Message := { id := "u1", role := "user", message := some "hi" }

/-- The current chat at the time the send is issued. -/
def c4Chat : Chat := { id := some "c1", loaded := true, messages := [c4UserMsg] }

/-- The store at the time the send is issued. -/
def c4State : AppData := { currentChat := some c4Chat }

/-- The result of the synchronous part of the send: placeholder pushed,
request built, index captured. -/
def c4Start : ChatStart := chatStep c4State "" "gpt-4" 50 1000 "" none none "p1"

/-- The placeholder assistant message pushed by the send. -/
def c4Placeholder : Message := { id := "p1", role := "assistant", message := some "..." }

/-- A message the user inserts at the front while the exchange is in
flight. -/
def c4Inserted : Message := { id := "n1", role := "user", message := some "first" }

/-- The store after that concurrent insertion. -/
def c4State2 : AppData := insertMessage c4Start.state none c4Inserted

/-- An incoming streaming frame: a full replacement value carrying the
placeholder's id. -/
def c4Frame : Message := { id := "p1", role := "assistant", message := some "Hello!" }

/-- A chat whose only label source is its temporary_name. -/
def w8Chat : Chat := { temporary_name := "Foo" }

/- Helper lemmas. -/

/-- cancel never changes the current chat. -/
theorem cancel_currentChat (s : AppData) : (cancel s).currentChat = s.currentChat := rfl

/-- Clamping always yields at most 200 characters. -/
theorem clamp_length (v : String) : (clamp v).length ≤ 200 := by
  unfold clamp
  split
  · show (v.data.take 200).length ≤ 200
    simp [List.length_take]
  · omega

/-- Clamping is exactly taking the first 200 characters. -/
theorem clamp_eq_take (v : String) : clamp v = ⟨v.data.take 200⟩ := by
  unfold clamp
  split
  · rfl
  · rename_i h
    apply String.ext
    show v.data = v.data.take 200
    rw [List.take_of_length_le]
    show v.length ≤ 200
    omega

/-- The message loop of label returns the clamped text of the first
message with truthy text. -/
theorem labelFromMessages_eq_find (ms : List Message) :
    labelFromMessages ms =
      (ms.find? fun m => m.message.getD "" != "").map
        (fun m => clamp (m.message.getD "")) := by
  induction ms with
  | nil => rfl
  | cons m rest ih =>
    unfold labelFromMessages
    by_cases h : m.message.getD "" = ""
    · rw [if_neg (by simp [h]), List.find?_cons_of_neg]
      · exact ih
      · simp [h]
    · rw [if_pos h, List.find?_cons_of_pos]
      · rfl
      · simp [h]

/-- C1: isSaved returns true exactly when a current conversation and an
active user exist, the conversation's id is non-empty, its owning-user
id equals the active user's id, and it is marked loaded; in every
other state it returns false. -/
theorem isSaved_characterization (s : AppData) :
    isSaved s = true ↔
      ∃ c u, s.currentChat = some c ∧ s.user = some u ∧
        c.id.getD "" ≠ "" ∧ c.user_id = some u.id ∧ c.loaded = true := by
  unfold isSaved
  cases hc : s.currentChat with
  | none => simp
  | some c =>
    cases hu : s.user with
    | none => simp
    | some u =>
      by_cases h1 : c.id.getD "" = "" <;>
        by_cases h2 : c.user_id = some u.id <;>
          cases h3 : c.loaded <;>
            simp_all

/-- Witness for C1 at a concrete save-eligible store. -/
theorem isSaved_characterization_witness : isSaved w1State = true :=
  (isSaved_characterization w1State).mpr
    ⟨w1Chat, w1User, rfl, rfl, by decide, rfl, rfl⟩

/-- C2: the flush writes, as the single durable snapshot and whatever
snapshot was there before, the stashed draft when the current
conversation is save-eligible and a draft exists and otherwise the
current conversation itself, together with the active user and schema
version 3. -/
theorem doSave_snapshot (s : AppData) (prev : Option LocalSaveInfo) :
    (doSave s prev).storage = some
      { user := s.user
        chat := if isSaved s ∧ s.unsavedChat.isSome then s.unsavedChat else s.currentChat
        version := some 3 } := by
  unfold doSave
  by_cases h : isSaved s = true
  · simp only [h]
    cases s.currentChat <;> simp
  · simp only [Bool.not_eq_true] at h
    simp [h]

/-- C7: cancel is a total operation that on any state — idle or with
an active exchange — leaves the busy flag false, clears both transport
handles, schedules the debounced persistence flush, and touches no
conversation data (a no-op when idle). -/
theorem cancel_clears_and_schedules (s : AppData) :
    (cancel s).busy = false ∧
    (cancel s).abortController = false ∧
    (cancel s).streamWebSocket = false ∧
    (cancel s).dirtyScheduled = some 1500 ∧
    (cancel s).currentChat = s.currentChat ∧
    (cancel s).unsavedChat = s.unsavedChat ∧
    (cancel s).chats = s.chats ∧
    (cancel s).user = s.user := by
  simp [cancel, dirty]

/-- C3 counterexample: at a store whose current conversation is not
save-eligible (it has no id and no user is set) and has a message,
opening none leaves the store completely unchanged — in particular the
current conversation is still the old non-empty one, not a freshly
synthesized empty conversation as the claim requires when no draft
exists. -/
theorem openChat_none_claim_false :
    openChat c3State none "fresh-id" {} = c3State ∧
    c3State.unsavedChat = none ∧
    isSaved c3State = false ∧
    c3State.currentChat.map Chat.messages ≠ some [] := by decide

/-- C3 amended: when the current conversation is save-eligible,
opening none makes the stashed draft current if one exists and
otherwise a freshly synthesized conversation (fresh id, loaded, empty),
clearing the stash; when it is not save-eligible, opening none leaves
the store unchanged. -/
theorem openChat_none_cases (s : AppData) (fid : String) (fr : Chat) :
    (isSaved s = false → openChat s none fid fr = s) ∧
    (isSaved s = true →
      openChat s none fid fr =
        { s with currentChat := some (s.unsavedChat.getD { id := some fid, loaded := true })
                 unsavedChat := none }) := by
  constructor
  · intro h
    unfold openChat
    simp [h]
  · intro h
    unfold openChat
    cases hd : s.unsavedChat <;> simp [h, hd]

/-- Witness for C3 (amended) at a concrete save-eligible store with a
stashed draft: the draft becomes current and the stash is cleared. -/
theorem openChat_none_cases_witness :
    openChat w3State none "fresh" {} =
      { w3State with
          currentChat := some (w3State.unsavedChat.getD { id := some "fresh", loaded := true })
          unsavedChat := none } :=
  (openChat_none_cases w3State "fresh" {}).2 (by decide)

/-- C5 counterexample: truncating at the first message of a chat in a
store with no pending flush performs the edit (all messages from that
point are removed) yet schedules no persistence flush, so truncate
does not mark state dirty. -/
theorem truncate_schedules_no_flush :
    (truncate c5State c5Msg).currentChat.map Chat.messages = some [] ∧
    (truncate c5State c5Msg).dirtyScheduled = none := by decide

/-- C5 amended: with a current conversation present, insertMessage and
deleteMessage mark state dirty (schedule the debounced 1500ms flush)
after performing their edit — insertMessage growing the message list
by one — while truncate performs its edit without scheduling any
flush. -/
theorem editOps_dirty (s : AppData) (c : Chat) (h : s.currentChat = some c)
    (om : Option Message) (nm m : Message) :
    (insertMessage s om nm).dirtyScheduled = some 1500 ∧
    (insertMessage s om nm).currentChat.map (fun x => x.messages.length)
      = some (c.messages.length + 1) ∧
    (deleteMessage s m).dirtyScheduled = some 1500 ∧
    (truncate s m).dirtyScheduled = s.dirtyScheduled := by
  have hlen : ∀ idx : Nat,
      (c.messages.take idx ++ nm :: c.messages.drop idx).length
        = c.messages.length + 1 := by
    intro idx
    simp [List.length_take, List.length_drop]
    omega
  refine ⟨?_, ?_, ?_, ?_⟩
  · unfold insertMessage
    simp [h, dirty]
  · unfold insertMessage
    simp only [h, dirty]
    cases om with
    | none => simp [hlen]
    | some om' =>
      cases c.messages.findIdx? (fun x => x == om') <;> simp [hlen]
  · unfold deleteMessage
    simp [h, dirty]
  · unfold truncate
    simp only [h]
    cases c.messages.findIdx? (fun x => x == m) <;> simp

/-- Witness for C5 (amended) at a concrete store. -/
theorem editOps_dirty_witness :
    (insertMessage c5State none c5Msg).dirtyScheduled = some 1500 ∧
    (insertMessage c5State none c5Msg).currentChat.map (fun x => x.messages.length)
      = some (c5Chat.messages.length + 1) ∧
    (deleteMessage c5State c5Msg).dirtyScheduled = some 1500 ∧
    (truncate c5State c5Msg).dirtyScheduled = c5State.dirtyScheduled :=
  editOps_dirty c5State c5Chat rfl none c5Msg c5Msg

/-- C10: invoking the send operation with no current conversation
returns after the always-run cancel and busy-flag assignment: busy is
left true, no request frame is produced, no index is captured, no
streaming connection is open, no message was appended anywhere and the
conversation list is untouched. -/
theorem chat_noCurrentChat (s : AppData) (h : s.currentChat = none)
    (p mo k fid : String) (d mt : Nat)
    (msgs : Option (List Message)) (msg : Option Message) :
    (chatStep s p mo d mt k msgs msg fid).state.busy = true ∧
    (chatStep s p mo d mt k msgs msg fid).request = none ∧
    (chatStep s p mo d mt k msgs msg fid).capturedIndex = none ∧
    (chatStep s p mo d mt k msgs msg fid).state.streamWebSocket = false ∧
    (chatStep s p mo d mt k msgs msg fid).state.currentChat = none ∧
    (chatStep s p mo d mt k msgs msg fid).state.chats = s.chats := by
  unfold chatStep
  simp [cancel, dirty, h]

/-- Witness for C10 at the default (empty) store, which has no current
conversation. -/
theorem chat_noCurrentChat_witness :
    (chatStep {} "p" "gpt-4" 50 1000 "" none none "f").state.busy = true ∧
    (chatStep {} "p" "gpt-4" 50 1000 "" none none "f").request = none ∧
    (chatStep {} "p" "gpt-4" 50 1000 "" none none "f").capturedIndex = none ∧
    (chatStep {} "p" "gpt-4" 50 1000 "" none none "f").state.streamWebSocket = false ∧
    (chatStep {} "p" "gpt-4" 50 1000 "" none none "f").state.currentChat = none ∧
    (chatStep {} "p" "gpt-4" 50 1000 "" none none "f").state.chats = AppData.chats {} :=
  chat_noCurrentChat {} rfl "p" "gpt-4" "" "f" 50 1000 none none

/-- C4 (evidence for the code bug): a send from a chat holding one
user message captures index 1 for its placeholder; a concurrent
insertion at the front shifts the placeholder to position 2; the
incoming frame — carrying the placeholder's id "p1" — is nevertheless
written at the captured index 1, wholesale-replacing the unrelated
user message "u1" and leaving the placeholder's stale text in place,
instead of being routed to the message whose id matches. -/
theorem frame_routed_by_captured_index :
    c4Start.capturedIndex = some 1 ∧
    c4State2.currentChat.map (fun ch => ch.messages.map Message.id)
      = some ["n1", "u1", "p1"] ∧
    c4State2.currentChat.map (fun ch => (onMessageFrame ch 1 c4Frame).messages)
      = some [c4Inserted, c4Frame, c4Placeholder] ∧
    c4Frame.id = c4Placeholder.id ∧
    c4UserMsg.id ≠ c4Frame.id := by decide

/-- C6 (evidence for the code bug): a version-1 blob with no messages
is returned unchanged — still tagged version 1 and not wrapped — and a
second application leaves it at version 1 as well, because the bump to
version 2 sits inside the per-message loop; the claim requires a
version-3 wrapped result. -/
theorem upgrade_v1_empty_not_migrated :
    upgradeStoredData (StoredBlob.bare [] (some 1)) = StoredBlob.bare [] (some 1) ∧
    (upgradeStoredData (upgradeStoredData (StoredBlob.bare [] (some 1)))).version
      = some 1 := by decide

/-- C8: label prefers the explicit name; else the first 200 characters
of the settings prompt when non-empty; else the first 200 characters
of the first message that has text; else the temporary_name when
non-empty; else the fixed placeholder, and in the prompt/message cases
it never exceeds 200 characters. -/
theorem label_priority (c : Chat) :
    (c.name ≠ "" → c.label = c.name) ∧
    (c.name = "" → c.settings.prompt ≠ "" →
      c.label = ⟨c.settings.prompt.data.take 200⟩ ∧ c.label.length ≤ 200) ∧
    (c.name = "" → c.settings.prompt = "" →
      ∀ m, (c.messages.find? fun x => x.message.getD "" != "") = some m →
        c.label = ⟨(m.message.getD "").data.take 200⟩ ∧ c.label.length ≤ 200) ∧
    (c.name = "" → c.settings.prompt = "" →
      (c.messages.find? fun x => x.message.getD "" != "") = none →
      c.temporary_name ≠ "" → c.label = c.temporary_name) ∧
    (c.name = "" → c.settings.prompt = "" →
      (c.messages.find? fun x => x.message.getD "" != "") = none →
      c.temporary_name = "" → c.label = "New Chat") := by
  refine ⟨?_, ?_, ?_, ?_, ?_⟩
  · intro h
    unfold Chat.label
    simp [h]
  · intro h1 h2
    have hl : c.label = clamp c.settings.prompt := by
      unfold Chat.label
      rw [if_neg (by simp [h1]), if_pos h2]
    constructor
    · rw [hl, clamp_eq_take]
    · rw [hl]
      exact clamp_length _
  · intro h1 h2 m hm
    have hl : c.label = clamp (m.message.getD "") := by
      unfold Chat.label
      rw [labelFromMessages_eq_find, hm]
      simp [h1, h2]
    constructor
    · rw [hl, clamp_eq_take]
    · rw [hl]
      exact clamp_length _
  · intro h1 h2 hf h3
    unfold Chat.label
    rw [labelFromMessages_eq_find, hf]
    simp [h1, h2, h3]
  · intro h1 h2 hf h3
    unfold Chat.label
    rw [labelFromMessages_eq_find, hf]
    simp [h1, h2, h3]

/-- Witness for C8 at a chat whose only label source is
temporary_name. -/
theorem label_priority_witness : w8Chat.label = "Foo" :=
  (label_priority w8Chat).2.2.2.1 rfl rfl rfl (by decide)

/-- C9: whenever a current conversation exists, the request frame the
send operation emits carries temperature (100 - determinism) / 100 * 2
for any determinism in 0..100; in particular determinism 100, 50 and 0
give temperatures 0, 1 and 2. -/
theorem chat_temperature (s : AppData) (c : Chat) (h : s.currentChat = some c)
    (d : Nat) (hd : d ≤ 100) (p mo k fid : String) (mt : Nat)
    (msgs : Option (List Message)) (msg : Option Message) :
    (chatStep s p mo d mt k msgs msg fid).request.map ChatRequest.temperature
      = some ((100 - (d : ℚ)) / 100 * 2) ∧
    (chatStep s p mo 100 mt k msgs msg fid).request.map ChatRequest.temperature
      = some 0 ∧
    (chatStep s p mo 50 mt k msgs msg fid).request.map ChatRequest.temperature
      = some 1 ∧
    (chatStep s p mo 0 mt k msgs msg fid).request.map ChatRequest.temperature
      = some 2 := by
  have key : ∀ dt : Nat,
      (chatStep s p mo dt mt k msgs msg fid).request.map ChatRequest.temperature
        = some ((100 - (dt : ℚ)) / 100 * 2) := by
    intro dt
    unfold chatStep
    cases msg <;> simp [cancel, dirty, h]
  refine ⟨key d, ?_, ?_, ?_⟩ <;> rw [key] <;> norm_num

/-- Witness for C9 at a concrete store and determinism 50. -/
theorem chat_temperature_witness :
    (chatStep c4State "p" "gpt-4" 50 1000 "" none none "f").request.map
        ChatRequest.temperature
      = some ((100 - (50 : ℚ)) / 100 * 2) :=
  (chat_temperature c4State c4Chat rfl 50 (by decide) "p" "gpt-4" "" "f" 1000
      none none).1

end HomelabGpt
